import Mathlib

/-
Verification development for the content-fetching and editable-binding layer:
the functions fetchPersistedQuery, usePageBySlug, useArticleBySlug and
useArticles of src/react-app/src/api/usePersistedQueries.js, and the Text
editable-field binder component.

Modelling conventions:
- JavaScript "undefined / absent field" is Option.none; optional chaining
  (a?.b) is Option.bind.
- JavaScript truthiness of a string-or-undefined value is jsTruthy: an
  absent value and the empty string are falsy.
- The AEM headless client is an external collaborator; one invocation of
  client.runPersistedQuery is modelled by the ClientOutcome it produces:
  it either resolves (possibly with a nullish response, or a response
  without a data field) or throws a JavaScript exception value.
- A thrown exception value either carries a toJSON method whose result
  has an optional message field, or has no toJSON method at all, in which
  case evaluating e.toJSON() itself raises a TypeError.
- Functions that can raise past their boundary return Except JsError.
- React useState state of a hook is a record; each setX call of the source
  is a field-update function that leaves the other fields untouched,
  exactly as React setters do.
- The lifetime of a usePageBySlug instance is a list of events: slugChange
  re-fires the effect (the source effect has no cleanup function and sets
  no state before awaiting, so the event leaves the state unchanged), and
  fetchComplete applies the state updates of one completed fetchData call
  (the source has no staleness guard, so every completion commits, in
  completion order, regardless of the current slug).
-/

namespace Spec2Proof

/-- JavaScript truthiness of an optional string: absent and empty are falsy. -/
def jsTruthy : Option String → Bool
  | none => false
  | some s => s != ""

/-- JavaScript disjunction a or-else b on optional strings, as used by
the source expression children or-else content.plaintext; total by
defaulting to the empty string (the source only evaluates it under a
guard that makes one operand truthy). -/
def jsOr (a b : Option String) : String :=
  if jsTruthy a then a.getD "" else b.getD ""

/-- A JavaScript exception value as seen by the catch handler of
fetchPersistedQuery: either it has a toJSON method (whose optional result
carries an optional message field, flattened here to the final value of
e.toJSON()?.message), or it has none, in which case calling e.toJSON()
raises a TypeError. -/
inductive JsExn where
  | noToJSON : JsExn
  | withToJSON (msg : Option String) : JsExn
deriving DecidableEq

/-- A JavaScript error that escapes a function, such as the TypeError
raised by calling a missing toJSON method. -/
inductive JsError where
  | typeError : JsError
deriving DecidableEq

/-- One behaviour of await client.runPersistedQuery(name, params): the
promise either resolves (outer Option: response nullish or not; inner
Option: data field present or absent) or rejects with an exception. -/
inductive ClientOutcome (α : Type) where
  | resolved (response : Option (Option α)) : ClientOutcome α
  | thrown (e : JsExn) : ClientOutcome α
deriving DecidableEq

/-- The value returned by fetchPersistedQuery: the object literal
with fields data and err, each possibly undefined. -/
structure FetchResult (α : Type) where
  data : Option α
  err : Option String
deriving DecidableEq

/-- Embedding of fetchPersistedQuery (usePersistedQueries.js lines 34-52).
On a resolved promise it stores response?.data and returns with err
undefined; in the catch handler it evaluates e.toJSON()?.message, which
raises a TypeError past the boundary when the exception has no toJSON
method. The query name and parameters are forwarded to the client only,
so the result is determined by the client outcome. -/
def fetchPersistedQuery (persistedQueryName : String)
    (queryParameters : List (String × String))
    (clientOutcome : ClientOutcome α) : Except JsError (FetchResult α) :=
  match clientOutcome with
  | .resolved response => .ok ⟨response.join, none⟩
  | .thrown .noToJSON => .error .typeError
  | .thrown (.withToJSON m) => .ok ⟨none, m⟩

/-- The pageList object of a page-by-slug payload: optional items array
and optional _references field. -/
structure PageList (α ρ : Type) where
  items : Option (List α)
  _references : Option ρ
deriving DecidableEq

/-- A page-by-slug payload (the data field of the envelope). -/
structure PagePayload (α ρ : Type) where
  pageList : Option (PageList α ρ)
deriving DecidableEq

/-- The useState state of one usePageBySlug instance:
data, references and error, all initially null. -/
structure PageState (α ρ : Type) where
  data : Option α
  references : Option ρ
  error : Option String
deriving DecidableEq

/-- The initial state of usePageBySlug: useState(null) three times. -/
def pageInit : PageState α ρ := ⟨none, none, none⟩

/-- React setData of usePageBySlug: replaces data, keeps the rest. -/
def PageState.setData (s : PageState α ρ) (v : Option α) : PageState α ρ :=
  ⟨v, s.references, s.error⟩

/-- React setReferences of usePageBySlug: replaces references, keeps the rest. -/
def PageState.setReferences (s : PageState α ρ) (v : Option ρ) : PageState α ρ :=
  ⟨s.data, v, s.error⟩

/-- React setError of usePageBySlug: replaces error, keeps the rest. -/
def PageState.setError (s : PageState α ρ) (v : Option String) : PageState α ρ :=
  ⟨s.data, s.references, v⟩

/-- The state updates performed by one completed fetchData call of
usePageBySlug (usePersistedQueries.js lines 90-100) on the state current
at completion time: if response?.err is truthy, setError(response.err);
else if response?.data?.pageList?.items?.length === 1, setData(items[0])
and setReferences(response.data.pageList._references); else setError of
the templated not-found message naming the slug. -/
def pageCommit (slugName : String) (response : FetchResult (PagePayload α ρ))
    (s : PageState α ρ) : PageState α ρ :=
  if jsTruthy response.err then
    s.setError response.err
  else
    match (response.data.bind PagePayload.pageList).bind PageList.items with
    | some [item] =>
        (s.setData (some item)).setReferences
          ((response.data.bind PagePayload.pageList).bind PageList._references)
    | _ => s.setError (some ("Cannot find Page with slug: " ++ slugName))

/-- One event in the lifetime of a usePageBySlug instance. slugChange is
the effect re-firing for a new slug value: the source effect body only
defines and calls fetchData, with no cleanup function and no state writes
before the await, so the visible state is unchanged by the event itself.
fetchComplete is the completion of the fetchData call started for the
recorded slug; the source has no staleness guard, so the completion
commits its updates whatever the current slug is. -/
inductive PageEvent (α ρ : Type) where
  | slugChange (slug : String) : PageEvent α ρ
  | fetchComplete (slug : String) (response : FetchResult (PagePayload α ρ)) :
      PageEvent α ρ
deriving DecidableEq

/-- How one event transforms the visible state of usePageBySlug. -/
def pageStep (s : PageState α ρ) : PageEvent α ρ → PageState α ρ
  | .slugChange _ => s
  | .fetchComplete slug response => pageCommit slug response s

/-- The visible state of a usePageBySlug instance after a sequence of
events, starting from the initial all-null state. -/
def runPage (events : List (PageEvent α ρ)) : PageState α ρ :=
  events.foldl pageStep pageInit

/-- The articleList object of an article-by-slug payload. -/
structure ArticleList (α : Type) where
  items : Option (List α)
deriving DecidableEq

/-- An article-by-slug payload (the data field of the envelope). -/
structure ArticlePayload (α : Type) where
  articleList : Option (ArticleList α)
deriving DecidableEq

/-- The useState state of one useArticleBySlug instance. -/
structure ArticleState (α : Type) where
  data : Option α
  error : Option String
deriving DecidableEq

/-- The initial state of useArticleBySlug: useState(null) twice. -/
def articleInit : ArticleState α := ⟨none, none⟩

/-- React setData of useArticleBySlug. -/
def ArticleState.setData (s : ArticleState α) (v : Option α) : ArticleState α :=
  ⟨v, s.error⟩

/-- React setError of useArticleBySlug. -/
def ArticleState.setError (s : ArticleState α) (v : Option String) : ArticleState α :=
  ⟨s.data, v⟩

/-- The state updates performed by one completed fetchData call of
useArticleBySlug (usePersistedQueries.js lines 127-136): same structure
as the page hook, on articleList, with no references field. -/
def articleCommit (slugName : String) (response : FetchResult (ArticlePayload α))
    (s : ArticleState α) : ArticleState α :=
  if jsTruthy response.err then
    s.setError response.err
  else
    match (response.data.bind ArticlePayload.articleList).bind ArticleList.items with
    | some [item] => s.setData (some item)
    | _ => s.setError (some ("Cannot find Article with slug: " ++ slugName))

/-- The articlePaginated object of an articles list payload. -/
structure ArticlePaginated (ε : Type) where
  edges : Option (List ε)
deriving DecidableEq

/-- An articles list payload (the data field of the envelope). -/
structure ArticlesPayload (ε : Type) where
  articlePaginated : Option (ArticlePaginated ε)
deriving DecidableEq

/-- The useState state of one useArticles instance. -/
structure ArticlesState (ε : Type) where
  data : Option (List ε)
  error : Option String
deriving DecidableEq

/-- The initial state of useArticles: useState(null) twice. -/
def articlesInit : ArticlesState ε := ⟨none, none⟩

/-- React setData of useArticles. -/
def ArticlesState.setData (s : ArticlesState ε) (v : Option (List ε)) :
    ArticlesState ε := ⟨v, s.error⟩

/-- React setError of useArticles. -/
def ArticlesState.setError (s : ArticlesState ε) (v : Option String) :
    ArticlesState ε := ⟨s.data, v⟩

/-- The state updates performed by one completed fetchData call of
useArticles (usePersistedQueries.js lines 157-166): if response?.err is
truthy, setError(response.err); else if
response?.data?.articlePaginated?.edges?.length is truthy (edges present
and non-empty), setData(edges); else setError("Cannot find Articles"). -/
def articlesCommit (response : FetchResult (ArticlesPayload ε))
    (s : ArticlesState ε) : ArticlesState ε :=
  if jsTruthy response.err then
    s.setError response.err
  else
    match (response.data.bind ArticlesPayload.articlePaginated).bind
        ArticlePaginated.edges with
    | some (e :: es) => s.setData (some (e :: es))
    | _ => s.setError (some "Cannot find Articles")

/-- The content prop of the Text binder: optional plaintext and html fields. -/
structure TextContent where
  plaintext : Option String
  html : Option String
deriving DecidableEq

/-- A rendered fragment of the Text binder: a div carrying the
data-aue-prop attribute (the property name), the className, and either
escaped text children (data-aue-type text) or markup injected through
dangerouslySetInnerHTML (data-aue-type richtext). A null render is
Option.none at the use sites. -/
inductive Fragment where
  | textFrag (prop : Option String) (className : Option String) (value : String) :
      Fragment
  | richFrag (prop : Option String) (className : Option String) (html : String) :
      Fragment
deriving DecidableEq

/-- Embedding of the Text component (src/unnamed/part_001): if
children or-else content?.plaintext is truthy, a text-typed div whose
child is children or-else content.plaintext; else if content?.html is
truthy, a richtext-typed div with unescaped content.html; else the
component stays null. -/
def Text (children : Option String) (content : Option TextContent)
    (className : Option String) (prop : Option String) : Option Fragment :=
  if jsTruthy children || jsTruthy (content.bind TextContent.plaintext) then
    some (.textFrag prop className
      (jsOr children (content.bind TextContent.plaintext)))
  else if jsTruthy (content.bind TextContent.html) then
    some (.richFrag prop className ((content.bind TextContent.html).getD ""))
  else
    none

/-- A successful page-by-slug fetch result holding exactly one item. -/
def okPage (item : String) : FetchResult (PagePayload String String) :=
  ⟨some ⟨some ⟨some [item], none⟩⟩, none⟩

/-- Event trace for the race: mounted at slug a, slug changes to b before
the first fetch settles, the fetch for b completes first, then the stale
fetch for a completes. -/
def c1Trace : List (PageEvent String String) :=
  [.slugChange "a", .slugChange "b",
   .fetchComplete "b" (okPage "pageB"),
   .fetchComplete "a" (okPage "pageA")]

/-- A fetch result carrying a transport error message. -/
def errBoom : FetchResult (PagePayload String String) := ⟨none, some "boom"⟩

/-- Event trace mixing an errored cycle for slug a with a successful
cycle for slug b. -/
def c2Trace : List (PageEvent String String) :=
  [.slugChange "a", .fetchComplete "a" errBoom,
   .slugChange "b", .fetchComplete "b" (okPage "pageB")]

/-- Event trace: a resolved cycle for slug a, then the slug changes to b,
observed before the new fetch completes. -/
def c3Trace : List (PageEvent String String) :=
  [.slugChange "a", .fetchComplete "a" (okPage "pageA"), .slugChange "b"]

/-- A page payload whose pageList holds exactly one item and a references
object. -/
def pagePayloadOne : PagePayload String String :=
  ⟨some ⟨some ["pageA"], some "refs"⟩⟩

/-- A page payload whose pageList holds an empty items array. -/
def pagePayloadEmpty : PagePayload String String := ⟨some ⟨some [], none⟩⟩

/-- An article payload whose articleList holds exactly one item. -/
def articlePayloadOne : ArticlePayload String := ⟨some ⟨some ["artA"]⟩⟩

/-- An article payload whose articleList holds two items. -/
def articlePayloadTwo : ArticlePayload String := ⟨some ⟨some ["artA", "artB"]⟩⟩

/-- An articles payload with two edges. -/
def articlesPayloadTwo : ArticlesPayload String := ⟨some ⟨some ["e1", "e2"]⟩⟩

/-- An articles payload with an empty edges array. -/
def articlesPayloadEmpty : ArticlesPayload String := ⟨some ⟨some []⟩⟩

theorem someBind (a : α) (f : α → Option β) : (some a).bind f = f a := rfl

theorem jsTruthy_ne_none {o : Option String} (h : jsTruthy o = true) : o ≠ none := by
  cases o with
  | none => simp [jsTruthy] at h
  | some s => exact fun hc => Option.noConfusion hc

/-- A single fetchData completion applied to the initial page state lands
in exactly one of the two committed shapes: errored (data and references
untouched, error set) or resolved (data set, error untouched). -/
theorem pageCommit_init_cases (slug : String) (r : FetchResult (PagePayload α ρ)) :
    (∃ m, pageCommit slug r pageInit = ⟨none, none, some m⟩) ∨
    (∃ x refs, pageCommit slug r pageInit = ⟨some x, refs, none⟩) := by
  unfold pageCommit
  split
  · next h =>
      left
      cases he : r.err with
      | none => rw [he] at h; simp [jsTruthy] at h
      | some s => exact ⟨s, rfl⟩
  · split
    · next item heq => exact Or.inr ⟨item, _, rfl⟩
    · next heq => exact Or.inl ⟨_, rfl⟩

/-- Analogue of pageCommit_init_cases for useArticleBySlug. -/
theorem articleCommit_init_cases (slug : String) (r : FetchResult (ArticlePayload α)) :
    (∃ m, articleCommit slug r articleInit = ⟨none, some m⟩) ∨
    (∃ x, articleCommit slug r articleInit = ⟨some x, none⟩) := by
  unfold articleCommit
  split
  · next h =>
      left
      cases he : r.err with
      | none => rw [he] at h; simp [jsTruthy] at h
      | some s => exact ⟨s, rfl⟩
  · split
    · next item heq => exact Or.inr ⟨item, rfl⟩
    · next heq => exact Or.inl ⟨_, rfl⟩

/-- Analogue of pageCommit_init_cases for useArticles. -/
theorem articlesCommit_init_cases (r : FetchResult (ArticlesPayload ε)) :
    (∃ m, articlesCommit r articlesInit = ⟨none, some m⟩) ∨
    (∃ l, articlesCommit r articlesInit = ⟨some l, none⟩) := by
  unfold articlesCommit
  split
  · next h =>
      left
      cases he : r.err with
      | none => rw [he] at h; simp [jsTruthy] at h
      | some s => exact ⟨s, rfl⟩
  · split
    · next e es heq => exact Or.inr ⟨e :: es, rfl⟩
    · next heq => exact Or.inl ⟨_, rfl⟩

/-- C1: the source hooks have no staleness guard, so the ordering claim
fails. On the trace where the slug changes from a to b before the first
fetch settles and the fetch for b completes first, the stale completion
for slug a overwrites the state: the final visible data is the item of
slug a, not the item of the last requested slug b. -/
theorem C1_stale_completion_wins :
    runPage c1Trace = ⟨some "pageA", none, none⟩ ∧
    (runPage c1Trace).data ≠ some "pageB" := by
  constructor
  · rfl
  · decide

/-- C2 counterexample: across a slug change, an errored cycle for slug a
followed by a resolved cycle for slug b leaves BOTH data and a non-empty
error populated, because neither setData path nor the slug change clears
the error field. This refutes the claim that the result never mixes
populated content and a non-empty error across fetch cycles. -/
theorem C2_mixed_state_counterexample :
    (runPage c2Trace).data = some "pageB" ∧
    (runPage c2Trace).error = some "boom" := by
  exact ⟨rfl, rfl⟩

/-- C2 amended: within a single fetch cycle from the initial all-null
state, each of the three hooks commits at most one of the two channels:
after one completion, data is still null or error is still null, for
every slug and every fetch result. (useArticles runs exactly one cycle
per mount, so for it this is the full invariant.) -/
theorem C2_single_cycle_no_mix (α ρ ε : Type) (slug : String)
    (rp : FetchResult (PagePayload α ρ)) (ra : FetchResult (ArticlePayload α))
    (rl : FetchResult (ArticlesPayload ε)) :
    ((pageCommit slug rp pageInit).data = none ∨
      (pageCommit slug rp pageInit).error = none) ∧
    ((articleCommit slug ra articleInit).data = none ∨
      (articleCommit slug ra articleInit).error = none) ∧
    ((articlesCommit rl articlesInit).data = none ∨
      (articlesCommit rl articlesInit).error = none) := by
  refine ⟨?_, ?_, ?_⟩
  · rcases pageCommit_init_cases slug rp with ⟨m, h⟩ | ⟨x, refs, h⟩
    · exact Or.inl (by rw [h])
    · exact Or.inr (by rw [h])
  · rcases articleCommit_init_cases slug ra with ⟨m, h⟩ | ⟨x, h⟩
    · exact Or.inl (by rw [h])
    · exact Or.inr (by rw [h])
  · rcases articlesCommit_init_cases rl with ⟨m, h⟩ | ⟨l, h⟩
    · exact Or.inl (by rw [h])
    · exact Or.inr (by rw [h])

/-- C3 counterexample: after a resolved cycle for slug a, changing the
slug to b does NOT reset the state to the pending all-null state: the
effect body has no cleanup and clears nothing, so the data of slug a is
still visible before the new fetch commits. -/
theorem C3_no_reset_counterexample :
    runPage c3Trace = ⟨some "pageA", none, none⟩ ∧
    runPage c3Trace ≠ (pageInit : PageState String String) := by
  exact ⟨rfl, by decide⟩

/-- C3 amended: a slug change leaves the visible state unchanged (no
reset to pending occurs; previous data, references and error persist
until overwritten by a later completion), and within one fetch cycle the
initial pending state transitions by a single commit to exactly one of
the errored shape or the resolved shape. -/
theorem C3_transitions_without_reset (α ρ : Type) (s : PageState α ρ)
    (newSlug slug : String) (r : FetchResult (PagePayload α ρ)) :
    pageStep s (PageEvent.slugChange newSlug) = s ∧
    ((∃ m, pageCommit slug r pageInit = ⟨none, none, some m⟩) ∨
     (∃ x refs, pageCommit slug r pageInit = ⟨some x, refs, none⟩)) :=
  ⟨rfl, pageCommit_init_cases slug r⟩

/-- C4 counterexample: when the client throws an exception value that has
no toJSON method, the catch handler evaluates e.toJSON() and itself
raises a TypeError, so fetchPersistedQuery does not return a data/err
value: the error escapes its boundary. -/
theorem C4_toJSON_throw_counterexample :
    fetchPersistedQuery "endpoint/page-by-slug" []
        (ClientOutcome.thrown JsExn.noToJSON : ClientOutcome String) =
      Except.error JsError.typeError := rfl

/-- C4 amended: for every query name, parameter list and client
behaviour in which any thrown exception carries a toJSON method,
fetchPersistedQuery returns a data/err value without throwing: a
resolved client promise yields the envelope data field with err
undefined, and a thrown exception with toJSON yields err equal to
e.toJSON()?.message with data undefined. -/
theorem C4_no_throw_with_toJSON (α : Type) (name : String)
    (params : List (String × String)) (response : Option (Option α))
    (m : Option String) :
    fetchPersistedQuery name params (ClientOutcome.resolved response) =
      Except.ok ⟨response.join, none⟩ ∧
    fetchPersistedQuery name params
        (ClientOutcome.thrown (JsExn.withToJSON m) : ClientOutcome α) =
      Except.ok ⟨none, m⟩ :=
  ⟨rfl, rfl⟩

/-- C7 counterexample: a malformed envelope — the client resolves with a
response object that has no data field — is NOT converted to a failure:
fetchPersistedQuery returns with both data and err undefined, so no
failure message is produced, contradicting the claim that a malformed
envelope yields Failure(message). -/
theorem C7_malformed_envelope_counterexample :
    fetchPersistedQuery "endpoint/page-by-slug" []
        (ClientOutcome.resolved (some none) : ClientOutcome String) =
      Except.ok ⟨none, none⟩ ∧
    fetchPersistedQuery "endpoint/page-by-slug" []
        (ClientOutcome.resolved (none : Option (Option String))) =
      Except.ok ⟨none, none⟩ :=
  ⟨rfl, rfl⟩

/-- C7 amended: whenever the client promise resolves, fetchPersistedQuery
returns the optionally-chained data field of the response envelope with
err undefined; a malformed envelope (nullish response or missing data
field) therefore propagates as undefined data with no error message
rather than as a failure. -/
theorem C7_resolved_extracts_data (α : Type) (name : String)
    (params : List (String × String)) (response : Option (Option α)) :
    fetchPersistedQuery name params (ClientOutcome.resolved response) =
      Except.ok ⟨response.join, none⟩ :=
  rfl

/-- C5 counterexample: a transport failure whose exception message is the
empty string is not propagated: response.err is falsy, so the hook falls
through to the shape check and commits the templated not-found message
instead of the exception message. -/
theorem C5_empty_message_counterexample :
    (pageCommit "a" (⟨none, some ""⟩ : FetchResult (PagePayload String String))
        pageInit).error = some "Cannot find Page with slug: a" ∧
    (pageCommit "a" (⟨none, some ""⟩ : FetchResult (PagePayload String String))
        pageInit).error ≠ some "" := by
  exact ⟨rfl, by decide⟩

/-- C5 amended: for every transport failure whose captured exception
message is a NON-EMPTY string, each of the three hooks commits the
errored state carrying exactly that message; an empty or absent message
instead falls through to the not-found branch. -/
theorem C5_transport_error_propagates (α ρ ε : Type) (slug m : String)
    (h : m ≠ "") :
    pageCommit slug (⟨none, some m⟩ : FetchResult (PagePayload α ρ)) pageInit =
      ⟨none, none, some m⟩ ∧
    articleCommit slug (⟨none, some m⟩ : FetchResult (ArticlePayload α))
        articleInit = ⟨none, some m⟩ ∧
    articlesCommit (⟨none, some m⟩ : FetchResult (ArticlesPayload ε))
        articlesInit = ⟨none, some m⟩ := by
  have ht : jsTruthy (some m) = true := by
    simp [jsTruthy, h]
  refine ⟨?_, ?_, ?_⟩
  · unfold pageCommit
    rw [if_pos ht]
    rfl
  · unfold articleCommit
    rw [if_pos ht]
    rfl
  · unfold articlesCommit
    rw [if_pos ht]
    rfl

/-- Witness for C5_transport_error_propagates at the concrete message
boom and slug s. -/
theorem C5_transport_error_propagates_witness :
    ("boom" ≠ "") ∧
    (pageCommit "s" (⟨none, some "boom"⟩ : FetchResult (PagePayload String String))
        pageInit = ⟨none, none, some "boom"⟩ ∧
     articleCommit "s" (⟨none, some "boom"⟩ : FetchResult (ArticlePayload String))
        articleInit = ⟨none, some "boom"⟩ ∧
     articlesCommit (⟨none, some "boom"⟩ : FetchResult (ArticlesPayload String))
        articlesInit = ⟨none, some "boom"⟩) :=
  ⟨by decide, C5_transport_error_propagates String String String "s" "boom"
    (by decide)⟩

/-- C6: on a successful by-slug response (no err), if the expected
collection holds exactly one item the hook commits the resolved state
with that item (and, for the page hook, the _references field of the
pageList); if the collection holds any other number of items, or is
absent, it commits the errored state with the templated message
Cannot find Kind with slug: slug, which contains the requested slug. -/
theorem C6_by_slug_validation (α ρ : Type) (slug : String)
    (p : PagePayload α ρ) (q : ArticlePayload α) :
    (∀ x : α, p.pageList.bind PageList.items = some [x] →
      pageCommit slug ⟨some p, none⟩ pageInit =
        ⟨some x, p.pageList.bind PageList._references, none⟩) ∧
    ((∀ x : α, p.pageList.bind PageList.items ≠ some [x]) →
      pageCommit slug ⟨some p, none⟩ pageInit =
        ⟨none, none, some ("Cannot find Page with slug: " ++ slug)⟩) ∧
    (∀ x : α, q.articleList.bind ArticleList.items = some [x] →
      articleCommit slug ⟨some q, none⟩ articleInit = ⟨some x, none⟩) ∧
    ((∀ x : α, q.articleList.bind ArticleList.items ≠ some [x]) →
      articleCommit slug ⟨some q, none⟩ articleInit =
        ⟨none, some ("Cannot find Article with slug: " ++ slug)⟩) := by
  refine ⟨?_, ?_, ?_, ?_⟩
  · intro x hx
    have hx2 : ((some p).bind PagePayload.pageList).bind PageList.items =
        some [x] := hx
    unfold pageCommit
    rw [hx2]
    rfl
  · intro hx
    unfold pageCommit
    rcases hit : ((some p).bind PagePayload.pageList).bind PageList.items with
      _ | (_ | ⟨x, _ | ⟨y, ys⟩⟩)
    · rfl
    · rfl
    · exact absurd hit (hx x)
    · rfl
  · intro x hx
    have hx2 : ((some q).bind ArticlePayload.articleList).bind ArticleList.items =
        some [x] := hx
    unfold articleCommit
    rw [hx2]
    rfl
  · intro hx
    unfold articleCommit
    rcases hit : ((some q).bind ArticlePayload.articleList).bind ArticleList.items
      with _ | (_ | ⟨x, _ | ⟨y, ys⟩⟩)
    · rfl
    · rfl
    · exact absurd hit (hx x)
    · rfl

/-- Witness for C6_by_slug_validation: a one-item page payload resolves
with the item and its references; an empty page payload yields the
not-found message; a one-item article payload resolves; a two-item
article payload yields the not-found message. -/
theorem C6_by_slug_validation_witness :
    pageCommit "s" ⟨some pagePayloadOne, none⟩ pageInit =
      ⟨some "pageA", some "refs", none⟩ ∧
    pageCommit "s" ⟨some pagePayloadEmpty, none⟩ pageInit =
      ⟨none, none, some "Cannot find Page with slug: s"⟩ ∧
    articleCommit "s" ⟨some articlePayloadOne, none⟩ articleInit =
      ⟨some "artA", none⟩ ∧
    articleCommit "s" ⟨some articlePayloadTwo, none⟩ articleInit =
      ⟨none, some "Cannot find Article with slug: s"⟩ :=
  ⟨(C6_by_slug_validation String String "s" pagePayloadOne articlePayloadOne).1
      "pageA" rfl,
   (C6_by_slug_validation String String "s" pagePayloadEmpty
       articlePayloadOne).2.1 (by simp [pagePayloadEmpty]),
   (C6_by_slug_validation String String "s" pagePayloadOne
       articlePayloadOne).2.2.1 "artA" rfl,
   (C6_by_slug_validation String String "s" pagePayloadOne
       articlePayloadTwo).2.2.2 (by simp [articlePayloadTwo])⟩

/-- C8: on a successful articles list response (no err), a present and
non-empty edges array commits the resolved state holding exactly that
array; an empty or absent edges array commits the errored state with the
message Cannot find Articles. -/
theorem C8_articles_validation (ε : Type) (pl : ArticlesPayload ε) :
    (∀ (e : ε) (es : List ε),
      pl.articlePaginated.bind ArticlePaginated.edges = some (e :: es) →
      articlesCommit ⟨some pl, none⟩ articlesInit = ⟨some (e :: es), none⟩) ∧
    ((∀ (e : ε) (es : List ε),
        pl.articlePaginated.bind ArticlePaginated.edges ≠ some (e :: es)) →
      articlesCommit ⟨some pl, none⟩ articlesInit =
        ⟨none, some "Cannot find Articles"⟩) := by
  constructor
  · intro e es he
    have he2 : ((some pl).bind ArticlesPayload.articlePaginated).bind
        ArticlePaginated.edges = some (e :: es) := he
    unfold articlesCommit
    rw [he2]
    rfl
  · intro he
    unfold articlesCommit
    rcases hit : ((some pl).bind ArticlesPayload.articlePaginated).bind
        ArticlePaginated.edges with _ | (_ | ⟨e, es⟩)
    · rfl
    · rfl
    · exact absurd hit (he e es)

/-- Witness for C8_articles_validation: a payload with edges [e1, e2]
resolves to exactly that list; a payload with empty edges yields the
message Cannot find Articles. -/
theorem C8_articles_validation_witness :
    articlesCommit ⟨some articlesPayloadTwo, none⟩ articlesInit =
      ⟨some ["e1", "e2"], none⟩ ∧
    articlesCommit ⟨some articlesPayloadEmpty, none⟩ articlesInit =
      ⟨none, some "Cannot find Articles"⟩ :=
  ⟨(C8_articles_validation String articlesPayloadTwo).1 "e1" ["e2"] rfl,
   (C8_articles_validation String articlesPayloadEmpty).2
     (by simp [articlesPayloadEmpty])⟩

/-- C9 counterexample: with no children, no plaintext, and content.html
present but equal to the empty string, the binder renders nothing: the
html branch tests JavaScript truthiness, so a present-but-empty html
field yields Empty rather than a richtext fragment, refuting the claim
that presence of content.html alone selects the richtext path. -/
theorem C9_empty_html_counterexample :
    Text none (some ⟨none, some ""⟩) none none = none ∧
    Text none (some ⟨none, some ""⟩) none none ≠
      some (Fragment.richFrag none none "") := by
  exact ⟨rfl, by decide⟩

/-- C9 amended: the binder follows the precedence with truthiness tests
throughout: truthy children yield the plain-text fragment tagged text
with the property name; else truthy content.plaintext yields the same
plain-text fragment with that value; else content.html present AND
non-empty yields the unescaped-HTML fragment tagged richtext; else the
render is Empty with no fragment and no metadata. -/
theorem C9_binder_precedence (children : Option String)
    (content : Option TextContent) (cn p : Option String) :
    (jsTruthy children = true →
      Text children content cn p =
        some (Fragment.textFrag p cn (children.getD ""))) ∧
    (jsTruthy children = false →
      jsTruthy (content.bind TextContent.plaintext) = true →
      Text children content cn p =
        some (Fragment.textFrag p cn
          ((content.bind TextContent.plaintext).getD ""))) ∧
    (jsTruthy children = false →
      jsTruthy (content.bind TextContent.plaintext) = false →
      jsTruthy (content.bind TextContent.html) = true →
      Text children content cn p =
        some (Fragment.richFrag p cn
          ((content.bind TextContent.html).getD ""))) ∧
    (jsTruthy children = false →
      jsTruthy (content.bind TextContent.plaintext) = false →
      jsTruthy (content.bind TextContent.html) = false →
      Text children content cn p = none) := by
  refine ⟨?_, ?_, ?_, ?_⟩
  · intro hc
    unfold Text
    rw [hc]
    simp [jsOr, hc]
  · intro hc hp
    unfold Text
    rw [hc, hp]
    simp [jsOr, hc]
  · intro hc hp hh
    unfold Text
    rw [hc, hp, hh]
    simp
  · intro hc hp hh
    unfold Text
    rw [hc, hp, hh]
    simp

/-- Witness for C9_binder_precedence at the concrete inputs of the spec:
children Hello yields a text-tagged fragment, content html b yields a
richtext-tagged fragment, empty content with no children yields Empty. -/
theorem C9_binder_precedence_witness :
    jsTruthy (some "Hello") = true ∧
    Text (some "Hello") none none (some "title") =
      some (Fragment.textFrag (some "title") none "Hello") ∧
    Text none (some ⟨none, some "<b>x</b>"⟩) none (some "body") =
      some (Fragment.richFrag (some "body") none "<b>x</b>") ∧
    Text none (some ⟨none, none⟩) none none = none :=
  ⟨by decide,
   (C9_binder_precedence (some "Hello") none none (some "title")).1 (by decide),
   (C9_binder_precedence none (some ⟨none, some "<b>x</b>"⟩) none
       (some "body")).2.2.1 (by decide) (by decide) (by decide),
   (C9_binder_precedence none (some ⟨none, none⟩) none none).2.2.2
     (by decide) (by decide) (by decide)⟩

/-- C10: falsy children (absent or the empty string) are treated exactly
as if no children were supplied: the render equals the render with
children absent; in particular, with no truthy plaintext and truthy html
the result is the richtext fragment, with neither the result is Empty,
and a falsy children never produces a plain-text fragment with empty
value. -/
theorem C10_falsy_children_ignored (children : Option String)
    (content : Option TextContent) (cn p : Option String)
    (hc : jsTruthy children = false) :
    Text children content cn p = Text none content cn p ∧
    (jsTruthy (content.bind TextContent.plaintext) = false →
      jsTruthy (content.bind TextContent.html) = true →
      Text children content cn p =
        some (Fragment.richFrag p cn
          ((content.bind TextContent.html).getD ""))) ∧
    (jsTruthy (content.bind TextContent.plaintext) = false →
      jsTruthy (content.bind TextContent.html) = false →
      Text children content cn p = none) ∧
    (∀ (pr c : Option String) (v : String),
      Text children content cn p = some (Fragment.textFrag pr c v) → v ≠ "") := by
  refine ⟨?_, ?_, ?_, ?_⟩
  · have h0 : jsTruthy (none : Option String) = false := rfl
    have hj : jsOr children (content.bind TextContent.plaintext) =
        jsOr none (content.bind TextContent.plaintext) := by
      unfold jsOr
      rw [hc, h0]
      rfl
    unfold Text
    rw [hc, h0, hj]
  · intro hp hh
    unfold Text
    rw [hc, hp, hh]
    rfl
  · intro hp hh
    unfold Text
    rw [hc, hp, hh]
    rfl
  · intro pr c v hv
    cases hp : jsTruthy (content.bind TextContent.plaintext) with
    | false =>
        unfold Text at hv
        rw [hc, hp] at hv
        simp at hv
    | true =>
        cases hpe : content.bind TextContent.plaintext with
        | none => rw [hpe] at hp; simp [jsTruthy] at hp
        | some s =>
            unfold Text at hv
            rw [hc, hp] at hv
            simp [jsOr, hc, hpe] at hv
            rw [hpe] at hp
            simp [jsTruthy] at hp
            rcases hv with ⟨hpr, hcn, hval⟩
            subst hval
            exact hp

/-- Witness for C10_falsy_children_ignored: empty-string children with an
html-only content yield the richtext fragment, and with empty content
yield Empty. -/
theorem C10_falsy_children_ignored_witness :
    jsTruthy (some "") = false ∧
    Text (some "") (some ⟨none, some "<b>x</b>"⟩) none none =
      some (Fragment.richFrag none none "<b>x</b>") ∧
    Text (some "") (some ⟨none, none⟩) none none = none :=
  ⟨by decide,
   (C10_falsy_children_ignored (some "") (some ⟨none, some "<b>x</b>"⟩) none none
       (by decide)).2.1 (by decide) (by decide),
   (C10_falsy_children_ignored (some "") (some ⟨none, none⟩) none none
       (by decide)).2.2.1 (by decide) (by decide)⟩

end Spec2Proof
